import Mathlib

/-!
Shallow embedding of the QR tracking backend (src/app.py, with src/main.py a
truncated copy of its first 259 lines).  Tables of the SQLite schema
(`create_basic_schema`, app.py lines 132-193) become Lean structures; request
handlers become pure functions from a request value and a database value to a
response value and a new database value.  Timestamps are modelled as integers
(seconds); SQLite booleans are the integers the code actually stores and
compares (`active = 1`, `redirect_completed = 1`).  The outcome of the
`user_agents.parse` library call and of `uuid.uuid4()` are inputs of the
handler functions (an `Option UAParse` value, `none` meaning the parse raised,
and a session-id string).
-/

namespace QRTrack

/-- Row of the `campaigns` table (app.py lines 135-144).  The always-NULL
bookkeeping column is kept; `created_at` defaults are irrelevant to the
handlers modelled here and are plain integers. -/
structure Campaign where
  campaign_code : String
  client : String
  destination : String
  description : Option String := none
  active : Int := 1
  created_at : Int := 0
  updated_at : Int := 0
deriving Repr, DecidableEq

/-- Row of the `physical_devices` table (app.py lines 146-157). -/
structure PhysicalDevice where
  device_id : String
  device_name : Option String := none
  device_type : Option String := none
  location : Option String := none
  venue : Option String := none
  description : Option String := none
  active : Int := 1
  created_at : Int := 0
  updated_at : Int := 0
deriving Repr, DecidableEq

/-- Row of the `scans` table (app.py lines 159-183).  The columns the code
never writes from `/track` (`screen_resolution`, `country`, `city`,
`campaign_id`, `physical_device_id`) stay NULL throughout the claims treated
here and are omitted from the record. -/
structure Scan where
  id : Nat
  campaign_code : String
  client : String := ""
  destination : String := ""
  device_id : String := ""
  device_name : String := ""
  location : String := ""
  venue : String := ""
  user_device_type : String := ""
  browser : String := ""
  operating_system : String := ""
  user_agent : String := ""
  ip_address : String := ""
  session_id : String := ""
  scan_timestamp : Int := 0
  redirect_completed : Int := 0
  redirect_timestamp : Option Int := none
  duration_seconds : Option Int := none
deriving Repr, DecidableEq

/-- The single-file SQLite database.  `nextScanId` models the AUTOINCREMENT
counter of the `scans` table (`cursor.lastrowid` after the INSERT). -/
structure Db where
  campaigns : List Campaign := []
  physical_devices : List PhysicalDevice := []
  scans : List Scan := []
  nextScanId : Nat := 1
deriving Repr, DecidableEq

/-- Result of `user_agents.parse` as far as `detect_device_info` reads it
(app.py lines 208-226): the three device-class flags and the browser/os
family and version strings. -/
structure UAParse where
  is_mobile : Bool
  is_tablet : Bool
  is_pc : Bool
  browser_family : String := ""
  browser_version : String := ""
  os_family : String := ""
  os_version : String := ""
deriving Repr, DecidableEq

/-- The dictionary returned by `detect_device_info`. -/
structure DeviceInfo where
  device_type : String
  browser : String
  operating_system : String
  is_mobile : Bool
  is_tablet : Bool
  is_pc : Bool
deriving Repr, DecidableEq

/-- `detect_device_info` (app.py lines 205-237).  `parsed = none` models the
`except` branch: `user_agents.parse` raised. -/
def detect_device_info (parsed : Option UAParse) : DeviceInfo :=
  match parsed with
  | some ua =>
    let device_type :=
      if ua.is_mobile then "Mobile"
      else if ua.is_tablet then "Tablet"
      else if ua.is_pc then "Desktop"
      else "Unknown"
    { device_type := device_type
      browser := ua.browser_family ++ " " ++ ua.browser_version
      operating_system := ua.os_family ++ " " ++ ua.os_version
      is_mobile := ua.is_mobile
      is_tablet := ua.is_tablet
      is_pc := ua.is_pc }
  | none =>
    { device_type := "Unknown"
      browser := "Unknown"
      operating_system := "Unknown"
      is_mobile := false
      is_tablet := false
      is_pc := false }

/-- `get_client_ip` (app.py lines 239-250).  `none` models an absent header;
Python treats a present-but-empty header as falsy too. -/
def get_client_ip (x_forwarded_for x_real_ip client_host : Option String) : String :=
  let fwd := x_forwarded_for.getD ""
  if fwd != "" then ((fwd.splitOn ",").headD "").trim
  else
    let real := x_real_ip.getD ""
    if real != "" then real
    else client_host.getD "unknown"

/-- Lookup in `dict(request.query_params)` (app.py line 376): for a repeated
key the Python `dict(...)` constructor keeps the last binding. -/
def getParam (params : List (String × String)) (key : String) : Option String :=
  (params.reverse.find? (fun p => p.1 == key)).map (fun p => p.2)

/-- `params.get(key, dflt)`. -/
def getParamD (params : List (String × String)) (key dflt : String) : String :=
  (getParam params key).getD dflt

/-- Destination resolution of `/track` (app.py lines 399-410): when the
`destination` parameter is falsy and a campaign code is given, look the
destination up in `campaigns`; when it is still falsy afterwards, fall back
to a Google search for the campaign code. -/
def resolve_destination (destination campaign_code : String)
    (campaigns : List Campaign) : String :=
  let d1 :=
    if destination == "" && campaign_code != "" then
      ((campaigns.find? (fun c => c.campaign_code == campaign_code)).map
        (fun row => row.destination)).getD destination
    else destination
  if d1 == "" then "https://google.com/search?q=" ++ campaign_code else d1

/-- The f-string of app.py lines 434-471 up to (and excluding) the
meta-refresh tag: everything before the first interpolation point.  Literal
braces of the CSS (doubled in the Python f-string) are written as escapes. -/
def track_html_head : String :=
  "\n        <!DOCTYPE html>
        <html>
        <head>
            <meta charset=\"UTF-8\">
            <meta name=\"viewport\" content=\"width=device-width, initial-scale=1.0\">
            <title>Redirigiendo...</title>
            <style>
                body \x7b
                    font-family: Arial, sans-serif;
                    display: flex;
                    justify-content: center;
                    align-items: center;
                    min-height: 100vh;
                    margin: 0;
                    background: linear-gradient(135deg, #667eea 0%, #764ba2 100%);
                    color: white;
                    text-align: center;
                \x7d
                .container \x7b
                    background: rgba(255, 255, 255, 0.1);
                    padding: 40px;
                    border-radius: 15px;
                    backdrop-filter: blur(10px);
                \x7d
                .loading \x7b
                    width: 40px;
                    height: 40px;
                    border: 4px solid rgba(255,255,255,0.3);
                    border-radius: 50%;
                    border-top-color: white;
                    animation: spin 1s ease-in-out infinite;
                    margin: 20px auto;
                \x7d
                @keyframes spin \x7b
                    to \x7b transform: rotate(360deg); \x7d
                \x7d
            </style>
            "

/-- The f-string of app.py lines 473-510, from just after the meta-refresh
tag to the end.  `client_display` is the rendered `client or 'destino'`
value; literal braces and apostrophes of the JavaScript are escapes. -/
def track_html_tail (client_display campaign_code destination session_id : String)
    (scan_id : Nat) : String :=
  "\n        </head>
        <body>
            <div class=\"container\">
                <h1>🎯 QR Tracking</h1>
                <div class=\"loading\"></div>
                <p>Redirigiendo a " ++ client_display ++ "...</p>
                <p><small>Campaña: " ++ campaign_code ++ "</small></p>
                <p><a href=\"" ++ destination ++ "\" style=\"color: white;\">Ir manualmente si no redirije</a></p>
            </div>
            <script>
                // Registrar que la redirección se completó después de 3 segundos
                setTimeout(() => \x7b
                    fetch(\x27/api/track/complete\x27, \x7b
                        method: \x27POST\x27,
                        headers: \x7b\x27Content-Type\x27: \x27application/json\x27\x7d,
                        body: JSON.stringify(\x7b
                            session_id: \x27" ++ session_id ++ "\x27,
                            scan_id: " ++ toString scan_id ++ ",
                            completion_time: new Date().toISOString()
                        \x7d)
                    \x7d).catch(console.error);

                    // Redirigir
                    window.location.href = \x27" ++ destination ++ "\x27;
                \x7d, 3000);

                // Registrar tiempo de permanencia al salir
                window.addEventListener(\x27beforeunload\x27, () => \x7b
                    navigator.sendBeacon(\x27/api/track/complete\x27, JSON.stringify(\x7b
                        session_id: \x27" ++ session_id ++ "\x27,
                        scan_id: " ++ toString scan_id ++ ",
                        completion_time: new Date().toISOString()
                    \x7d));
                \x7d);
            </script>
        </body>
        </html>
        "

/-- The full `html_response` f-string of app.py lines 434-510. -/
def track_html (destination client_display campaign_code session_id : String)
    (scan_id : Nat) : String :=
  track_html_head
    ++ ("<meta http-equiv=\"refresh\" content=\"3;url=" ++ destination ++ "\">")
    ++ track_html_tail client_display campaign_code destination session_id scan_id

/-- The parts of an incoming `/track` request the handler reads. -/
structure TrackRequest where
  query_params : List (String × String) := []
  user_agent : String := ""
  x_forwarded_for : Option String := none
  x_real_ip : Option String := none
  client_host : Option String := none
deriving Repr, DecidableEq

/-- Outcome of the `/track` handler: the rendered page and fresh scan row id,
or a raised `HTTPException`; both carry the database state after the
handler ran. -/
inductive TrackResult where
  | ok (html : String) (scan_id : Nat) (db : Db)
  | err (status : Nat) (detail : String) (db : Db)
deriving Repr, DecidableEq

/-- `track_qr_scan` (app.py lines 371-518).  `parsed` is the outcome of
`user_agents.parse` on the User-Agent header, `session_id` the fresh
`uuid.uuid4()` string, and `now` the value of `datetime.now()`. -/
def track_qr_scan (req : TrackRequest) (parsed : Option UAParse)
    (session_id : String) (now : Int) (db : Db) : TrackResult :=
  let campaign_code := (getParam req.query_params "campaign").getD ""
  if campaign_code == "" then
    .err 400 "Parámetro \x27campaign\x27 requerido" db
  else
    let client := getParamD req.query_params "client" ""
    let destination0 := getParamD req.query_params "destination" ""
    let device_id := getParamD req.query_params "device_id" ""
    let device_name := getParamD req.query_params "device_name" ""
    let location := getParamD req.query_params "location" ""
    let venue := getParamD req.query_params "venue" ""
    let device_info := detect_device_info parsed
    let client_ip := get_client_ip req.x_forwarded_for req.x_real_ip req.client_host
    let destination := resolve_destination destination0 campaign_code db.campaigns
    let scan_id := db.nextScanId
    let row : Scan :=
      { id := scan_id
        campaign_code := campaign_code
        client := client
        destination := destination
        device_id := device_id
        device_name := device_name
        location := location
        venue := venue
        user_device_type := device_info.device_type
        browser := device_info.browser
        operating_system := device_info.operating_system
        user_agent := req.user_agent
        ip_address := client_ip
        session_id := session_id
        scan_timestamp := now
        redirect_completed := 0
        redirect_timestamp := none
        duration_seconds := none }
    let db' := { db with scans := db.scans ++ [row], nextScanId := db.nextScanId + 1 }
    .ok (track_html destination (if client == "" then "destino" else client)
          campaign_code session_id scan_id)
        scan_id db'

/-- JSON body of `POST /api/track/complete` as `complete_tracking` reads it
(app.py lines 1103-1106).  `none` models an absent key. -/
structure CompleteBody where
  session_id : Option String := none
  scan_id : Option Nat := none
  completion_time : Option Int := none
deriving Repr, DecidableEq

/-- `complete_tracking` (app.py lines 1099-1140).  Returns the `success`
flag of the JSON reply together with the new database.  Python truthiness:
a missing or empty `session_id` and a missing or zero `scan_id` both take
the early-error branch. -/
def complete_tracking (body : CompleteBody) (now : Int) (db : Db) : Bool × Db :=
  let sid_falsy := match body.session_id with | none => true | some s => s == ""
  let scan_falsy := match body.scan_id with | none => true | some n => n == 0
  if sid_falsy || scan_falsy then (false, db)
  else
    let sid := body.session_id.getD ""
    let sc := body.scan_id.getD 0
    let found := db.scans.find? (fun s => s.id == sc && s.session_id == sid)
    let duration : Option Int :=
      match found, body.completion_time with
      | some r, some ct => some (ct - r.scan_timestamp)
      | _, _ => none
    let scans' := db.scans.map (fun s =>
      if s.id == sc && s.session_id == sid then
        { s with redirect_completed := 1, redirect_timestamp := some now,
                 duration_seconds := duration }
      else s)
    (true, { db with scans := scans' })

/-- The `stats` row of `GET /api/analytics/dashboard` (app.py lines
1002-1010). -/
structure DashboardStats where
  active_campaigns : Nat
  active_devices : Nat
  total_scans : Nat
  completed_redirects : Nat
  total_clients : Nat
deriving Repr, DecidableEq

/-- The five scalar subqueries of the dashboard stats SELECT (app.py lines
1002-1010): COUNT(*) aggregates over the embedded tables. -/
def get_dashboard_stats (db : Db) : DashboardStats :=
  { active_campaigns := db.campaigns.countP (fun c => c.active == 1)
    active_devices := db.physical_devices.countP (fun d => d.active == 1)
    total_scans := db.scans.length
    completed_redirects := db.scans.countP (fun s => s.redirect_completed == 1)
    total_clients :=
      (((db.scans.filter (fun s => s.client != "")).map (fun s => s.client)).eraseDups).length }

/-- `delete_campaign`, i.e. `DELETE /api/campaigns/{campaign_code}` (app.py
lines 667-688): a soft delete that only sets `active = 0` and touches
`updated_at` on the matching rows; `false` when no row matched
(`cursor.rowcount == 0`). -/
def delete_campaign (campaign_code : String) (now : Int) (db : Db) : Bool × Db :=
  let matched := db.campaigns.countP (fun c => c.campaign_code == campaign_code)
  if matched == 0 then (false, db)
  else
    (true,
     { db with campaigns := db.campaigns.map (fun c =>
        if c.campaign_code == campaign_code then
          { c with active := 0, updated_at := now }
        else c) })

/-- Reply of `PATCH /api/devices/{device_id}/toggle-status`. -/
inductive ToggleResult where
  | ok (active : Int)
  | notFound
deriving Repr, DecidableEq

/-- `toggle_device_status` (app.py lines 929-963): read the first matching
row's `active`, flip `1` to `0` and anything else to `1`, and write the new
value (plus `updated_at = CURRENT_TIMESTAMP`) to the matching rows. -/
def toggle_device_status (device_id : String) (now : Int) (db : Db) :
    ToggleResult × Db :=
  match db.physical_devices.find? (fun d => d.device_id == device_id) with
  | none => (.notFound, db)
  | some r =>
    let new_active : Int := if r.active == 1 then 0 else 1
    (.ok new_active,
     { db with physical_devices := db.physical_devices.map (fun d =>
        if d.device_id == device_id then
          { d with active := new_active, updated_at := now }
        else d) })

/-- Body of `PUT /api/campaigns/{campaign_code}` (`CampaignUpdate`, app.py
lines 73-77). -/
structure CampaignUpdate where
  client : Option String := none
  destination : Option String := none
  description : Option String := none
  active : Option Bool := none
deriving Repr, DecidableEq

/-- The dynamically built UPDATE text of `update_campaign` (app.py lines
589-613): `none` when no field is present (the handler then reports an
error and executes nothing). -/
def update_campaign_query (u : CampaignUpdate) : Option String :=
  let update_fields :=
    (if u.client.isSome then ["client = ?"] else []) ++
    (if u.destination.isSome then ["destination = ?"] else []) ++
    (if u.description.isSome then ["description = ?"] else []) ++
    (if u.active.isSome then ["active = ?"] else [])
  if update_fields.isEmpty then none
  else
    some ("UPDATE campaigns SET "
      ++ String.intercalate ", " (update_fields ++ ["updated_at = CURRENT_TIMESTAMP"])
      ++ " WHERE campaign_code = ?")

/-- Which optional fields a `CampaignUpdate` carries; the user-chosen string
values themselves do not enter the shape. -/
def cu_shape (u : CampaignUpdate) : Bool × Bool × Bool × Bool :=
  (u.client.isSome, u.destination.isSome, u.description.isSome, u.active.isSome)

/-- Query-string filters of `GET /api/scans` (app.py lines 1169-1175). -/
structure ScanQuery where
  campaign_code : Option String := none
  device_id : Option String := none
  start_date : Option String := none
  end_date : Option String := none
deriving Repr, DecidableEq

/-- Python truthiness of an optional string parameter. -/
def truthy (o : Option String) : Bool := (o.getD "") != ""

/-- The dynamically built SELECT text of `get_scans` (app.py lines
1183-1203); the filter values are appended to the parameter list, never to
the text. -/
def get_scans_query (f : ScanQuery) : String :=
  "SELECT * FROM scans WHERE 1=1"
  ++ (if truthy f.campaign_code then " AND campaign_code = ?" else "")
  ++ (if truthy f.device_id then " AND device_id = ?" else "")
  ++ (if truthy f.start_date then " AND scan_timestamp >= ?" else "")
  ++ (if truthy f.end_date then " AND scan_timestamp <= ?" else "")
  ++ " ORDER BY scan_timestamp DESC LIMIT ? OFFSET ?"

/-- Truthiness shape of the `get_scans` filters. -/
def sq_shape (f : ScanQuery) : Bool × Bool × Bool × Bool :=
  (truthy f.campaign_code, truthy f.device_id, truthy f.start_date, truthy f.end_date)

/-- SQL text of the campaign lookup in `/track` (app.py line 403). -/
def campaign_lookup_sql : String :=
  "SELECT destination FROM campaigns WHERE campaign_code = ?"

/-- SQL text of the scan INSERT in `/track` (app.py lines 415-420),
whitespace normalised. -/
def scan_insert_sql : String :=
  "INSERT INTO scans (campaign_code, client, destination, device_id, device_name, location, venue, user_device_type, browser, operating_system, user_agent, ip_address, session_id, scan_timestamp) VALUES (?, ?, ?, ?, ?, ?, ?, ?, ?, ?, ?, ?, ?, ?)"

/-- The SQL texts `/track` hands to the database, in execution order: the
lookup runs only when no destination parameter was supplied, the INSERT
always (after the 400 check). -/
def track_sql_texts (req : TrackRequest) : List String :=
  let campaign_code := (getParam req.query_params "campaign").getD ""
  if campaign_code == "" then []
  else
    (if getParamD req.query_params "destination" "" == "" && campaign_code != ""
     then [campaign_lookup_sql] else [])
    ++ [scan_insert_sql]

/-- Which branches of `track_qr_scan` run: whether the campaign parameter is
falsy and whether the destination parameter is falsy. -/
def track_shape (req : TrackRequest) : Bool × Bool :=
  ((getParam req.query_params "campaign").getD "" == "",
   getParamD req.query_params "destination" "" == "")

/-- Every `@app.<method>(path)` registration of src/app.py, in source order.
The repeated device routes come from the two sides of the unresolved merge
conflict in the file (both sides carry a decorated handler). -/
def app_routes : List (String × String) :=
  [("GET", "/"),
   ("GET", "/dashboard"),
   ("GET", "/admin/campaigns"),
   ("GET", "/generate-qr"),
   ("GET", "/devices"),
   ("GET", "/health"),
   ("GET", "/track"),
   ("GET", "/api/campaigns"),
   ("POST", "/api/campaigns"),
   ("PUT", "/api/campaigns/\x7bcampaign_code\x7d"),
   ("DELETE", "/api/campaigns/\x7bcampaign_code\x7d/delete-permanently"),
   ("PATCH", "/api/campaigns/\x7bcampaign_code\x7d/deactivate"),
   ("DELETE", "/api/campaigns/\x7bcampaign_code\x7d"),
   ("GET", "/api/devices"),
   ("GET", "/api/devices"),
   ("GET", "/api/devices/\x7bdevice_id\x7d"),
   ("POST", "/api/devices"),
   ("PUT", "/api/devices/\x7bdevice_id\x7d"),
   ("GET", "/api/devices/\x7bdevice_id\x7d"),
   ("DELETE", "/api/devices/\x7bdevice_id\x7d"),
   ("PATCH", "/api/devices/\x7bdevice_id\x7d/toggle-status"),
   ("DELETE", "/api/devices/\x7bdevice_id\x7d"),
   ("GET", "/api/analytics/dashboard"),
   ("POST", "/api/track/complete"),
   ("POST", "/api/analytics/qr-generated"),
   ("GET", "/api/scans"),
   ("GET", "/api/campaigns/\x7bcampaign_code\x7d/stats"),
   ("GET", "/api/devices/\x7bdevice_id\x7d/stats"),
   ("GET", "/api/export/scans")]

/-- Every `@app.<method>(path)` registration of src/main.py.  The file is a
truncated copy of app.py that ends mid-function at line 259, inside the
body of `index`; the only decorator it contains is the index route. -/
def main_routes : List (String × String) :=
  [("GET", "/")]

/-- Observable behaviour of a `/track` run: the page and scan id on success,
status and detail on error, and the `scans` table afterwards.  (It forgets
the `campaigns` and `physical_devices` tables, which `/track` never
writes.) -/
def track_obs (r : TrackResult) :
    Option (String × Nat) × Option (Nat × String) × List Scan :=
  match r with
  | .ok html scan_id db => (some (html, scan_id), none, db.scans)
  | .err status detail db => (none, some (status, detail), db.scans)

/-! ## Helper lemmas -/

theorem delete_campaign_scans (campaign_code : String) (now : Int) (db : Db) :
    (delete_campaign campaign_code now db).2.scans = db.scans := by
  simp only [delete_campaign]
  split <;> rfl

theorem delete_campaign_nextScanId (campaign_code : String) (now : Int) (db : Db) :
    (delete_campaign campaign_code now db).2.nextScanId = db.nextScanId := by
  simp only [delete_campaign]
  split <;> rfl

theorem delete_campaign_find_dest (cc campaign_code : String) (now : Int) (db : Db) :
    ((delete_campaign campaign_code now db).2.campaigns.find?
        (fun c => c.campaign_code == cc)).map (fun row => row.destination)
      = (db.campaigns.find? (fun c => c.campaign_code == cc)).map
          (fun row => row.destination) := by
  simp only [delete_campaign]
  split
  · rfl
  · show ((db.campaigns.map _).find? _).map _ = _
    rw [List.find?_map, Option.map_map]
    have hpred : ((fun c : Campaign => c.campaign_code == cc) ∘
        (fun c : Campaign => if c.campaign_code == campaign_code then
          { c with active := 0, updated_at := now } else c))
        = fun c : Campaign => c.campaign_code == cc := by
      funext c
      by_cases h : c.campaign_code = campaign_code <;> simp [h]
    have hdest : ((fun row : Campaign => row.destination) ∘
        (fun c : Campaign => if c.campaign_code == campaign_code then
          { c with active := 0, updated_at := now } else c))
        = fun row : Campaign => row.destination := by
      funext c
      by_cases h : c.campaign_code = campaign_code <;> simp [h]
    rw [hpred, hdest]

theorem delete_campaign_resolve (d cc campaign_code : String) (now : Int) (db : Db) :
    resolve_destination d cc (delete_campaign campaign_code now db).2.campaigns
      = resolve_destination d cc db.campaigns := by
  simp only [resolve_destination, delete_campaign_find_dest]

theorem toggle_device_status_devices (device_id : String) (t : Int) (db : Db)
    (r : PhysicalDevice)
    (hfind : db.physical_devices.find? (fun d => d.device_id == device_id) = some r) :
    (toggle_device_status device_id t db).2.physical_devices
      = db.physical_devices.map (fun e =>
          if e.device_id == device_id then
            { e with active := (if r.active == 1 then (0 : Int) else 1), updated_at := t }
          else e) := by
  simp [toggle_device_status, hfind]

theorem toggle_device_status_find (device_id : String) (t : Int) (db : Db)
    (r : PhysicalDevice)
    (hfind : db.physical_devices.find? (fun d => d.device_id == device_id) = some r) :
    (toggle_device_status device_id t db).2.physical_devices.find?
        (fun d => d.device_id == device_id)
      = some { r with active := (if r.active == 1 then (0 : Int) else 1),
                      updated_at := t } := by
  have hpr := List.find?_some hfind
  rw [toggle_device_status_devices device_id t db r hfind, List.find?_map]
  have hcomp : ((fun d : PhysicalDevice => d.device_id == device_id) ∘
      (fun e : PhysicalDevice =>
        if e.device_id == device_id then
          { e with active := (if r.active == 1 then (0 : Int) else 1), updated_at := t }
        else e))
      = fun d : PhysicalDevice => d.device_id == device_id := by
    funext e
    by_cases h : e.device_id = device_id <;> simp [h]
  rw [hcomp, hfind]
  have hpr2 : r.device_id = device_id := by simpa using hpr
  simp [hpr2]

/-! ## Claim theorems -/

/-- Claim C2, counterexample: src/main.py does not expose the CRUD endpoints
of src/app.py.  `GET /api/campaigns` (and every other `/api` route) is
registered in app.py but absent from main.py, whose route table has no
`/api` entry at all — so there are no "overlapping, behaviourally equivalent
CRUD endpoints" between the two files. -/
theorem duplicate_backend_counterexample :
    ("GET", "/api/campaigns") ∈ app_routes ∧
    ("GET", "/api/campaigns") ∉ main_routes ∧
    ("GET", "/api/devices") ∈ app_routes ∧
    ("GET", "/api/scans") ∈ app_routes ∧
    main_routes.filter (fun r => r.2.startsWith "/api") = [] := by
  decide

/-- Claim C2, amended: src/main.py is a truncated copy of src/app.py (it ends
mid-function inside the `index` handler) whose only registered route is
`GET /`; the two files overlap on that single route and on their shared
model/utility prefix, and main.py implements none of the campaign, device or
scan CRUD endpoints that app.py exposes. -/
theorem main_py_single_route_overlap :
    main_routes = [("GET", "/")] ∧
    app_routes.filter (fun r => main_routes.contains r) = [("GET", "/")] ∧
    ("GET", "/track") ∈ app_routes ∧
    ("POST", "/api/campaigns") ∈ app_routes ∧
    ("POST", "/api/devices") ∈ app_routes := by
  decide

/-- Claim C6: the `stats` object of `GET /api/analytics/dashboard` counts
exactly: all scans rows, the scans rows with `redirect_completed = 1`, the
campaigns rows with `active = 1`, and the physical_devices rows with
`active = 1`. -/
theorem dashboard_stats_spec (db : Db) :
    (get_dashboard_stats db).total_scans = db.scans.length ∧
    (get_dashboard_stats db).completed_redirects
      = (db.scans.filter (fun s => s.redirect_completed == 1)).length ∧
    (get_dashboard_stats db).active_campaigns
      = (db.campaigns.filter (fun c => c.active == 1)).length ∧
    (get_dashboard_stats db).active_devices
      = (db.physical_devices.filter (fun d => d.active == 1)).length := by
  refine ⟨rfl, ?_, ?_, ?_⟩ <;>
    simp [get_dashboard_stats, List.countP_eq_length_filter]

/-- Claim C7: `detect_device_info` always yields a `device_type` among
Mobile/Tablet/Desktop/Unknown, with mobile taking priority over tablet and
tablet over pc, and when `user_agents.parse` raises it still returns, with
device_type, browser and operating_system all "Unknown". -/
theorem detect_device_info_spec :
    (∀ parsed : Option UAParse,
      (detect_device_info parsed).device_type
        ∈ (["Mobile", "Tablet", "Desktop", "Unknown"] : List String)) ∧
    (∀ ua : UAParse, ua.is_mobile = true →
      (detect_device_info (some ua)).device_type = "Mobile") ∧
    (∀ ua : UAParse, ua.is_mobile = false → ua.is_tablet = true →
      (detect_device_info (some ua)).device_type = "Tablet") ∧
    (∀ ua : UAParse, ua.is_mobile = false → ua.is_tablet = false → ua.is_pc = true →
      (detect_device_info (some ua)).device_type = "Desktop") ∧
    (∀ ua : UAParse, ua.is_mobile = false → ua.is_tablet = false → ua.is_pc = false →
      (detect_device_info (some ua)).device_type = "Unknown") ∧
    (detect_device_info none).device_type = "Unknown" ∧
    (detect_device_info none).browser = "Unknown" ∧
    (detect_device_info none).operating_system = "Unknown" := by
  refine ⟨?_, ?_, ?_, ?_, ?_, rfl, rfl, rfl⟩
  · intro parsed
    match parsed with
    | none => simp [detect_device_info]
    | some ua =>
      by_cases h1 : ua.is_mobile <;> by_cases h2 : ua.is_tablet <;>
        by_cases h3 : ua.is_pc <;> simp [detect_device_info, h1, h2, h3]
  · intro ua h
    simp [detect_device_info, h]
  · intro ua h1 h2
    simp [detect_device_info, h1, h2]
  · intro ua h1 h2 h3
    simp [detect_device_info, h1, h2, h3]
  · intro ua h1 h2 h3
    simp [detect_device_info, h1, h2, h3]

/-- Witness for C7 at concrete parse results: a mobile flag wins, and a
tablet flag wins over a pc flag. -/
theorem detect_device_info_spec_witness :
    (detect_device_info (some { is_mobile := true, is_tablet := true, is_pc := true })).device_type
      = "Mobile" ∧
    (detect_device_info (some { is_mobile := false, is_tablet := true, is_pc := true })).device_type
      = "Tablet" :=
  ⟨detect_device_info_spec.2.1 { is_mobile := true, is_tablet := true, is_pc := true } rfl,
   detect_device_info_spec.2.2.1 { is_mobile := false, is_tablet := true, is_pc := true } rfl rfl⟩

/-- Claim C9: a `/track` request whose `campaign` query parameter is absent
or empty raises HTTP 400 with the Spanish detail message, and the database
is returned unchanged (the handler raises before any SQL runs). -/
theorem missing_campaign_param_spec (req : TrackRequest) (parsed : Option UAParse)
    (session_id : String) (now : Int) (db : Db)
    (h : (getParam req.query_params "campaign").getD "" = "") :
    track_qr_scan req parsed session_id now db
      = .err 400 "Parámetro \x27campaign\x27 requerido" db := by
  simp [track_qr_scan, h]

/-- Witness for C9: a request with an empty `campaign` parameter. -/
theorem missing_campaign_param_spec_witness :
    (getParam [("campaign", "")] "campaign").getD "" = "" ∧
    track_qr_scan { query_params := [("campaign", "")] } none "sid-0" 0 ({} : Db)
      = .err 400 "Parámetro \x27campaign\x27 requerido" ({} : Db) :=
  ⟨rfl, missing_campaign_param_spec { query_params := [("campaign", "")] } none "sid-0" 0 {} rfl⟩

/-- Claim C3, counterexample: when the campaign row exists but its stored
destination is the empty string (reachable, e.g. via
`PUT /api/campaigns/{campaign_code}` with `destination = ""`), the visitor
is NOT redirected to the stored destination: the handler falls through to
the Google fallback, because Python tests the looked-up value for
truthiness, not for row existence. -/
theorem stored_destination_empty_counterexample :
    resolve_destination "" "promo"
        [{ campaign_code := "promo", client := "Nike", destination := "" }]
      = "https://google.com/search?q=promo" ∧
    ("https://google.com/search?q=promo" : String) ≠ "" := by
  exact ⟨rfl, by decide⟩

/-- Claim C3, amended: with no (or an empty) `destination` parameter, a
matching campaign row redirects the visitor to its stored destination
provided that stored destination is non-empty; when no row matches or the
stored destination is empty, the target is the fallback
`https://google.com/search?q=<campaign_code>`; and a non-empty `destination`
parameter overrides the stored destination entirely. -/
theorem destination_resolution_spec (destination campaign_code : String)
    (campaigns : List Campaign) :
    (destination ≠ "" →
      resolve_destination destination campaign_code campaigns = destination) ∧
    (destination = "" → campaign_code ≠ "" →
      ∀ c, campaigns.find? (fun x => x.campaign_code == campaign_code) = some c →
        c.destination ≠ "" →
        resolve_destination destination campaign_code campaigns = c.destination) ∧
    (destination = "" →
      campaigns.find? (fun x => x.campaign_code == campaign_code) = none →
      resolve_destination destination campaign_code campaigns
        = "https://google.com/search?q=" ++ campaign_code) ∧
    (destination = "" →
      ∀ c, campaigns.find? (fun x => x.campaign_code == campaign_code) = some c →
        c.destination = "" →
        resolve_destination destination campaign_code campaigns
          = "https://google.com/search?q=" ++ campaign_code) := by
  refine ⟨?_, ?_, ?_, ?_⟩
  · intro h
    simp [resolve_destination, h]
  · intro h hcc c hf hcd
    subst h
    simp [resolve_destination, hf, hcc, hcd]
  · intro h hf
    subst h
    by_cases hcc : campaign_code = ""
    · subst hcc
      simp [resolve_destination]
    · simp [resolve_destination, hf, hcc]
  · intro h c hf hcd
    subst h
    by_cases hcc : campaign_code = ""
    · subst hcc
      simp [resolve_destination]
    · simp [resolve_destination, hf, hcc, hcd]

/-- Witness for C3 (amended): a stored non-empty destination is used, and a
missing row falls back to the Google search URL. -/
theorem destination_resolution_spec_witness :
    ("" : String) = "" ∧ ("promo" : String) ≠ "" ∧
    ([{ campaign_code := "promo", client := "Nike",
        destination := "https://nike.example" }] : List Campaign).find?
        (fun x => x.campaign_code == "promo")
      = some { campaign_code := "promo", client := "Nike",
               destination := "https://nike.example" } ∧
    resolve_destination "" "promo"
        [{ campaign_code := "promo", client := "Nike",
           destination := "https://nike.example" }]
      = "https://nike.example" ∧
    resolve_destination "" "missing" []
      = "https://google.com/search?q=" ++ "missing" :=
  ⟨rfl, by decide, rfl,
   (destination_resolution_spec "" "promo"
      [{ campaign_code := "promo", client := "Nike",
         destination := "https://nike.example" }]).2.1 rfl (by decide)
     { campaign_code := "promo", client := "Nike", destination := "https://nike.example" }
     rfl (by decide),
   (destination_resolution_spec "" "missing" []).2.2.1 rfl rfl⟩

/-- Claim C4: `POST /api/track/complete` with a missing `session_id` or
`scan_id` reports `success: False` and leaves the database untouched; with
both present (non-falsy), a supplied completion time, and a scans row
matching both the row id and the session_id column, it marks that row
completed, stamps `redirect_timestamp`, and stores as `duration_seconds`
the difference between the completion time and the row's scan
timestamp. -/
theorem complete_tracking_spec (body : CompleteBody) (now : Int) (db : Db) :
    ((body.session_id = none ∨ body.scan_id = none) →
      complete_tracking body now db = (false, db)) ∧
    (∀ sid i ct r,
      body.session_id = some sid → sid ≠ "" →
      body.scan_id = some i → i ≠ 0 →
      body.completion_time = some ct →
      db.scans.find? (fun s => s.id == i && s.session_id == sid) = some r →
      complete_tracking body now db =
        (true,
         { db with scans := db.scans.map (fun s =>
            if s.id == i && s.session_id == sid then
              { s with redirect_completed := 1, redirect_timestamp := some now,
                       duration_seconds := some (ct - r.scan_timestamp) }
            else s) })) := by
  constructor
  · rintro (h | h) <;> simp [complete_tracking, h]
  · intro sid i ct r hs hsne hi hine hct hf
    simp [complete_tracking, hs, hi, hct, hf, hsne, hine]

/-- Witness for C4: one matching scan row gets completed with duration
10 - 3 = 7; and a body with no session_id changes nothing. -/
theorem complete_tracking_spec_witness :
    ({ session_id := some "s", scan_id := some 1, completion_time := some 10 }
        : CompleteBody).session_id = some "s" ∧
    ([{ id := 1, campaign_code := "a", session_id := "s", scan_timestamp := 3 }]
        : List Scan).find? (fun s => s.id == 1 && s.session_id == "s")
      = some { id := 1, campaign_code := "a", session_id := "s", scan_timestamp := 3 } ∧
    complete_tracking
        { session_id := some "s", scan_id := some 1, completion_time := some 10 } 99
        { scans := [{ id := 1, campaign_code := "a", session_id := "s",
                      scan_timestamp := 3 }] }
      = (true,
         { scans := [{ id := 1, campaign_code := "a", session_id := "s",
                       scan_timestamp := 3, redirect_completed := 1,
                       redirect_timestamp := some 99,
                       duration_seconds := some (10 - 3) }] }) ∧
    complete_tracking { scan_id := some 1 } 99
        { scans := [{ id := 1, campaign_code := "a", session_id := "s",
                      scan_timestamp := 3 }] }
      = (false,
         { scans := [{ id := 1, campaign_code := "a", session_id := "s",
                       scan_timestamp := 3 }] }) :=
  ⟨rfl, rfl,
   (complete_tracking_spec
      { session_id := some "s", scan_id := some 1, completion_time := some 10 } 99
      { scans := [{ id := 1, campaign_code := "a", session_id := "s",
                    scan_timestamp := 3 }] }).2
     "s" 1 10 { id := 1, campaign_code := "a", session_id := "s", scan_timestamp := 3 }
     rfl (by decide) rfl (by decide) rfl rfl,
   (complete_tracking_spec { scan_id := some 1 } 99
      { scans := [{ id := 1, campaign_code := "a", session_id := "s",
                    scan_timestamp := 3 }] }).1 (Or.inl rfl)⟩

/-- Claim C5: the SQL texts the cited handlers hand to the database are
independent of the user-supplied string values — user values only enter the
bound-parameter lists.  Two `PUT /api/campaigns` bodies carrying the same
set of fields build the same UPDATE text, two `GET /api/scans` requests with
the same filters present build the same SELECT text, and two `/track`
requests taking the same branches execute the same (constant) statement
texts. -/
theorem sql_parameterization_spec :
    (∀ u₁ u₂ : CampaignUpdate, cu_shape u₁ = cu_shape u₂ →
      update_campaign_query u₁ = update_campaign_query u₂) ∧
    (∀ f₁ f₂ : ScanQuery, sq_shape f₁ = sq_shape f₂ →
      get_scans_query f₁ = get_scans_query f₂) ∧
    (∀ r₁ r₂ : TrackRequest, track_shape r₁ = track_shape r₂ →
      track_sql_texts r₁ = track_sql_texts r₂) := by
  refine ⟨?_, ?_, ?_⟩
  · intro u₁ u₂ h
    simp only [cu_shape, Prod.mk.injEq] at h
    obtain ⟨h1, h2, h3, h4⟩ := h
    simp [update_campaign_query, h1, h2, h3, h4]
  · intro f₁ f₂ h
    simp only [sq_shape, Prod.mk.injEq] at h
    obtain ⟨h1, h2, h3, h4⟩ := h
    simp [get_scans_query, h1, h2, h3, h4]
  · intro r₁ r₂ h
    simp only [track_shape, Prod.mk.injEq] at h
    obtain ⟨h1, h2⟩ := h
    simp only [getParamD] at h2
    simp only [track_sql_texts, getParamD, bne, h1, h2]

/-- Witness for C5: same field/filter/branch shapes with different string
values give byte-identical SQL texts. -/
theorem sql_parameterization_spec_witness :
    cu_shape { client := some "Nike" } = cu_shape { client := some "Adidas" } ∧
    update_campaign_query ({ client := some "Nike" } : CampaignUpdate)
      = update_campaign_query { client := some "Adidas" } ∧
    get_scans_query ({ campaign_code := some "promo_a" } : ScanQuery)
      = get_scans_query { campaign_code := some "promo_b" } ∧
    track_sql_texts { query_params := [("campaign", "x")] }
      = track_sql_texts { query_params := [("campaign", "y")] } :=
  ⟨rfl,
   sql_parameterization_spec.1 { client := some "Nike" } { client := some "Adidas" } rfl,
   sql_parameterization_spec.2.1 { campaign_code := some "promo_a" }
     { campaign_code := some "promo_b" } rfl,
   sql_parameterization_spec.2.2 { query_params := [("campaign", "x")] }
     { query_params := [("campaign", "y")] } rfl⟩

/-- Claim C1: a `/track` request carrying a (non-empty, per the convention of
C9 which counts an empty parameter as absent) `campaign` parameter runs the
whole sequence: the fresh session id is recorded, a destination is resolved
(looked up when none is supplied), exactly one new scans row is appended
holding the campaign code, session id, destination, user-agent-derived
device info, client IP and timestamp, the other tables are untouched, and
the returned page contains a meta-refresh tag with a 3-second delay
pointing at the resolved destination. -/
theorem track_scan_sequence_spec (req : TrackRequest) (parsed : Option UAParse)
    (session_id : String) (now : Int) (db : Db) (cc : String)
    (hcc : getParam req.query_params "campaign" = some cc) (hne : cc ≠ "") :
    ∃ html db',
      track_qr_scan req parsed session_id now db = .ok html db.nextScanId db' ∧
      db'.scans = db.scans ++
        [{ id := db.nextScanId
           campaign_code := cc
           client := getParamD req.query_params "client" ""
           destination := resolve_destination
             (getParamD req.query_params "destination" "") cc db.campaigns
           device_id := getParamD req.query_params "device_id" ""
           device_name := getParamD req.query_params "device_name" ""
           location := getParamD req.query_params "location" ""
           venue := getParamD req.query_params "venue" ""
           user_device_type := (detect_device_info parsed).device_type
           browser := (detect_device_info parsed).browser
           operating_system := (detect_device_info parsed).operating_system
           user_agent := req.user_agent
           ip_address := get_client_ip req.x_forwarded_for req.x_real_ip req.client_host
           session_id := session_id
           scan_timestamp := now
           redirect_completed := 0
           redirect_timestamp := none
           duration_seconds := none }] ∧
      db'.campaigns = db.campaigns ∧
      db'.physical_devices = db.physical_devices ∧
      db'.nextScanId = db.nextScanId + 1 ∧
      (∃ pre post, html = pre
        ++ ("<meta http-equiv=\"refresh\" content=\"3;url="
             ++ resolve_destination (getParamD req.query_params "destination" "")
                  cc db.campaigns
             ++ "\">")
        ++ post) := by
  have hv : (getParam req.query_params "campaign").getD "" = cc := by
    rw [hcc]
    rfl
  have hb : (cc == "") = false := by
    simpa using hne
  refine ⟨track_html
      (resolve_destination (getParamD req.query_params "destination" "") cc db.campaigns)
      (if getParamD req.query_params "client" "" == "" then "destino"
       else getParamD req.query_params "client" "")
      cc session_id db.nextScanId,
    { db with
      scans := db.scans ++
        [{ id := db.nextScanId
           campaign_code := cc
           client := getParamD req.query_params "client" ""
           destination := resolve_destination
             (getParamD req.query_params "destination" "") cc db.campaigns
           device_id := getParamD req.query_params "device_id" ""
           device_name := getParamD req.query_params "device_name" ""
           location := getParamD req.query_params "location" ""
           venue := getParamD req.query_params "venue" ""
           user_device_type := (detect_device_info parsed).device_type
           browser := (detect_device_info parsed).browser
           operating_system := (detect_device_info parsed).operating_system
           user_agent := req.user_agent
           ip_address := get_client_ip req.x_forwarded_for req.x_real_ip req.client_host
           session_id := session_id
           scan_timestamp := now
           redirect_completed := 0
           redirect_timestamp := none
           duration_seconds := none }]
      nextScanId := db.nextScanId + 1 },
    ?_, rfl, rfl, rfl, rfl,
    track_html_head,
    track_html_tail
      (if getParamD req.query_params "client" "" == "" then "destino"
       else getParamD req.query_params "client" "")
      cc (resolve_destination (getParamD req.query_params "destination" "") cc db.campaigns)
      session_id db.nextScanId,
    rfl⟩
  simp only [track_qr_scan, hv, hb, Bool.false_eq_true, if_false]

/-- Witness for C1: a concrete request with campaign `promo` and client
`Nike` against the empty database. -/
theorem track_scan_sequence_spec_witness :
    getParam [("campaign", "promo"), ("client", "Nike")] "campaign" = some "promo" ∧
    ("promo" : String) ≠ "" ∧
    (∃ html db',
      track_qr_scan
          { query_params := [("campaign", "promo"), ("client", "Nike")],
            user_agent := "UA-string", client_host := some "1.2.3.4" }
          none "sess-1" 5 ({} : Db)
        = .ok html ({} : Db).nextScanId db' ∧
      db'.scans = ({} : Db).scans ++
        [{ id := ({} : Db).nextScanId
           campaign_code := "promo"
           client := getParamD [("campaign", "promo"), ("client", "Nike")] "client" ""
           destination := resolve_destination
             (getParamD [("campaign", "promo"), ("client", "Nike")] "destination" "")
             "promo" ({} : Db).campaigns
           device_id := getParamD [("campaign", "promo"), ("client", "Nike")] "device_id" ""
           device_name := getParamD [("campaign", "promo"), ("client", "Nike")] "device_name" ""
           location := getParamD [("campaign", "promo"), ("client", "Nike")] "location" ""
           venue := getParamD [("campaign", "promo"), ("client", "Nike")] "venue" ""
           user_device_type := (detect_device_info none).device_type
           browser := (detect_device_info none).browser
           operating_system := (detect_device_info none).operating_system
           user_agent := "UA-string"
           ip_address := get_client_ip none none (some "1.2.3.4")
           session_id := "sess-1"
           scan_timestamp := 5
           redirect_completed := 0
           redirect_timestamp := none
           duration_seconds := none }] ∧
      db'.campaigns = ({} : Db).campaigns ∧
      db'.physical_devices = ({} : Db).physical_devices ∧
      db'.nextScanId = ({} : Db).nextScanId + 1 ∧
      (∃ pre post, html = pre
        ++ ("<meta http-equiv=\"refresh\" content=\"3;url="
             ++ resolve_destination
                  (getParamD [("campaign", "promo"), ("client", "Nike")] "destination" "")
                  "promo" ({} : Db).campaigns
             ++ "\">")
        ++ post)) :=
  ⟨rfl, by decide,
   track_scan_sequence_spec
     { query_params := [("campaign", "promo"), ("client", "Nike")],
       user_agent := "UA-string", client_host := some "1.2.3.4" }
     none "sess-1" 5 {} "promo" rfl (by decide)⟩

/-- Claim C8: `/track` never consults the `active` flag.  After the soft
delete of `DELETE /api/campaigns/{campaign_code}` (which only sets
`active = 0` and touches `updated_at`, as the second conjunct records), a
`/track` request is observationally identical to one against the
pre-delete database: same page (hence same redirect destination), same new
scan id, same error behaviour, and the same scans table afterwards. -/
theorem inactive_campaign_tracking_spec (campaign_code : String) (t : Int) (db : Db)
    (req : TrackRequest) (parsed : Option UAParse) (session_id : String) (now : Int) :
    track_obs (track_qr_scan req parsed session_id now
        (delete_campaign campaign_code t db).2)
      = track_obs (track_qr_scan req parsed session_id now db) ∧
    (delete_campaign campaign_code t db).2.campaigns.map
        (fun c => (c.campaign_code, c.client, c.destination, c.description, c.created_at))
      = db.campaigns.map
          (fun c => (c.campaign_code, c.client, c.destination, c.description,
                     c.created_at)) := by
  constructor
  · by_cases hcamp : (((getParam req.query_params "campaign").getD "") == "") = true
    · simp [track_qr_scan, track_obs, hcamp, delete_campaign_scans]
    · rw [Bool.not_eq_true] at hcamp
      simp only [track_qr_scan, hcamp, Bool.false_eq_true, if_false, track_obs,
        delete_campaign_scans, delete_campaign_nextScanId, delete_campaign_resolve]
  · simp only [delete_campaign]
    split
    · rfl
    · show (db.campaigns.map _).map _ = _
      rw [List.map_map]
      have hproj : ((fun c : Campaign =>
            (c.campaign_code, c.client, c.destination, c.description, c.created_at)) ∘
          (fun c : Campaign => if c.campaign_code == campaign_code then
            { c with active := 0, updated_at := t } else c))
          = fun c : Campaign =>
              (c.campaign_code, c.client, c.destination, c.description, c.created_at) := by
        funext c
        by_cases h : c.campaign_code = campaign_code <;> simp [h]
      rw [hproj]

/-- Claim C10: toggling an existing device's status maps `active = 1` to `0`
and any other stored value to `1`; two successive toggles starting from an
`active` in \x7b0, 1\x7d restore the original value (only `updated_at`
moves), and a single toggle changes no column other than `active` and
`updated_at`. -/
theorem toggle_device_involution_spec (device_id : String) (t₁ t₂ : Int) (db : Db)
    (r : PhysicalDevice)
    (hfind : db.physical_devices.find? (fun d => d.device_id == device_id) = some r)
    (huniq : ∀ e ∈ db.physical_devices, e.device_id = device_id → e.active = r.active)
    (h01 : r.active = 0 ∨ r.active = 1) :
    (toggle_device_status device_id t₁ db).1
      = .ok (if r.active == 1 then 0 else 1) ∧
    (toggle_device_status device_id t₂
        (toggle_device_status device_id t₁ db).2).2.physical_devices
      = db.physical_devices.map (fun e =>
          if e.device_id == device_id then { e with updated_at := t₂ } else e) ∧
    (toggle_device_status device_id t₁ db).2.physical_devices.map
        (fun e => (e.device_id, e.device_name, e.device_type, e.location, e.venue,
                   e.description, e.created_at))
      = db.physical_devices.map
          (fun e => (e.device_id, e.device_name, e.device_type, e.location, e.venue,
                     e.description, e.created_at)) := by
  refine ⟨?_, ?_, ?_⟩
  · simp [toggle_device_status, hfind]
  · rw [toggle_device_status_devices device_id t₂ _
          { r with active := (if r.active == 1 then (0 : Int) else 1), updated_at := t₁ }
          (toggle_device_status_find device_id t₁ db r hfind),
        toggle_device_status_devices device_id t₁ db r hfind,
        List.map_map]
    apply List.map_congr_left
    intro e he
    by_cases h : e.device_id = device_id
    · have hact : e.active = r.active := huniq e he h
      rcases h01 with h0 | h1
      · have he0 : e.active = 0 := hact.trans h0
        simp [Function.comp, h, h0, he0]
      · have he1 : e.active = 1 := hact.trans h1
        simp [Function.comp, h, h1, he1]
    · simp [Function.comp, h]
  · rw [toggle_device_status_devices device_id t₁ db r hfind, List.map_map]
    apply List.map_congr_left
    intro e _
    by_cases h : e.device_id = device_id <;> simp [Function.comp, h]

/-- Witness for C10: one device with `active = 1`; one toggle pauses it,
the second restores it, and only `updated_at` moves. -/
theorem toggle_device_involution_spec_witness :
    ([{ device_id := "totem-01", active := 1 }] : List PhysicalDevice).find?
        (fun d => d.device_id == "totem-01")
      = some { device_id := "totem-01", active := 1 } ∧
    (toggle_device_status "totem-01" 7
        { physical_devices := [{ device_id := "totem-01", active := 1 }] }).1
      = .ok (if (1 : Int) == 1 then 0 else 1) ∧
    (toggle_device_status "totem-01" 9
        (toggle_device_status "totem-01" 7
          { physical_devices := [{ device_id := "totem-01", active := 1 }] }).2).2.physical_devices
      = ([{ device_id := "totem-01", active := 1 }] : List PhysicalDevice).map (fun e =>
          if e.device_id == "totem-01" then { e with updated_at := (9 : Int) } else e) :=
  ⟨rfl,
   (toggle_device_involution_spec "totem-01" 7 9
      { physical_devices := [{ device_id := "totem-01", active := 1 }] }
      { device_id := "totem-01", active := 1 } rfl
      (by intro e he h; simp at he; simp [he]) (Or.inr rfl)).1,
   (toggle_device_involution_spec "totem-01" 7 9
      { physical_devices := [{ device_id := "totem-01", active := 1 }] }
      { device_id := "totem-01", active := 1 } rfl
      (by intro e he h; simp at he; simp [he]) (Or.inr rfl)).2.1⟩

end QRTrack
